import Mathlib

/-!
Shallow embedding of `custom_components/elevenlabs_stt/stt.py`, a Home
Assistant speech-to-text provider that forwards audio to the ElevenLabs
transcription API.  The network call is modelled by an explicit
`HttpOutcome` input; everything else (audio buffering, WAV parameter
setting, language-code resolution, request construction, response
handling, log emission) is translated directly from the source.
-/

namespace ElevenLabsSTT

/-- Result state enum of the host platform (`SpeechResultState`). -/
inductive SpeechResultState where
  | success : SpeechResultState
  | error : SpeechResultState
deriving DecidableEq, Repr

/-- Result value returned to the host platform (`SpeechResult(text, state)`). -/
structure SpeechResult where
  text : String
  state : SpeechResultState
deriving DecidableEq, Repr

/-- Metadata struct handed in by the platform (`SpeechMetadata`): language
hint, channel count, bit depth and sample rate. -/
structure SpeechMetadata where
  language : String
  channel : Nat
  bit_rate : Nat
  sample_rate : Nat
deriving DecidableEq, Repr

/-- Constant `DEFAULT_API_URL` from the source. -/
def DEFAULT_API_URL : String := "https://api.elevenlabs.io/v1"

/-- Constant `DEFAULT_MODEL` from the source. -/
def DEFAULT_MODEL : String := "scribe_v1"

/-- Constant `DEFAULT_LANGUAGE` from the source. -/
def DEFAULT_LANGUAGE : String := "auto"

/-- Constant `DEFAULT_DIARIZE` from the source. -/
def DEFAULT_DIARIZE : Bool := false

/-- Constant `DEFAULT_TAG_AUDIO_EVENTS` from the source. -/
def DEFAULT_TAG_AUDIO_EVENTS : Bool := false

/-- The `SUPPORTED_LANGUAGES` list from the source, verbatim. -/
def SUPPORTED_LANGUAGES : List String :=
  ["auto", "af", "ar", "hy", "az", "be", "bs", "bg", "ca", "zh", "hr", "cs",
   "da", "nl", "en", "et", "fi", "fr", "gl", "de", "el", "he", "hi", "hu",
   "is", "id", "it", "ja", "kn", "kk", "ko", "lv", "lt", "mk", "ms", "mr",
   "mi", "ne", "no", "fa", "pl", "pt", "ro", "ru", "sr", "sk", "sl", "es",
   "sw", "sv", "tl", "ta", "th", "tr", "uk", "ur", "vi", "cy"]

/-- The `language_map` dict built inside `async_process_audio_stream`,
verbatim: Python `None` becomes `none`, a string value becomes `some`. -/
def language_map : List (String × Option String) :=
  [("auto", none),
   ("en", some "eng"), ("fr", some "fra"), ("de", some "deu"),
   ("it", some "ita"), ("es", some "spa"), ("pt", some "por"),
   ("pl", some "pol"), ("nl", some "nld"), ("ru", some "rus"),
   ("ja", some "jpn"), ("zh", some "cmn"), ("ko", some "kor"),
   ("hi", some "hin"), ("ar", some "ara"), ("tr", some "tur"),
   ("sv", some "swe"), ("fi", some "fin"), ("da", some "dan"),
   ("no", some "nor"), ("cs", some "ces"), ("hu", some "hun"),
   ("el", some "ell"), ("ro", some "ron"), ("bg", some "bul"),
   ("hr", some "hrv"), ("uk", some "ukr"), ("he", some "heb"),
   ("ca", some "cat"), ("sk", some "slk"), ("lt", some "lit"),
   ("et", some "est"), ("lv", some "lav"), ("sl", some "slv"),
   ("cy", some "cym"), ("id", some "ind"), ("ms", some "msa"),
   ("vi", some "vie"), ("th", some "tha"), ("bn", some "ben"),
   ("ta", some "tam"), ("te", some "tel"), ("mr", some "mar"),
   ("kn", some "kan"), ("ml", some "mal"), ("gu", some "guj"),
   ("pa", some "pan"), ("ur", some "urd"), ("fa", some "fas"),
   ("sw", some "swh")]

/-- Python `language_map.get(language_code)`: the stored value when the key
is present (itself an `Option String`, since `"auto"` stores `None`), and
`None` when the key is absent. -/
def languageMapGet (language_code : String) : Option String :=
  match language_map.lookup language_code with
  | some v => v
  | none => none

/-- The provider object (`ElevenLabsSTTProvider.__init__` stores the six
configuration values). -/
structure ElevenLabsSTTProvider where
  api_key : String
  api_url : String
  model : String
  language : String
  diarize : Bool
  tag_audio_events : Bool
deriving DecidableEq, Repr

/-- Platform configuration as seen by `async_get_engine`: `api_key` is
required by the schema, the other keys may be absent (`config.get`). -/
structure PlatformConfig where
  api_key : String
  api_url : Option String
  model : Option String
  language : Option String
  diarize : Option Bool
  tag_audio_events : Option Bool
deriving DecidableEq, Repr

/-- Embedding of `async_get_engine`: reads each configuration key with its
default and constructs the provider. -/
def async_get_engine (config : PlatformConfig) : ElevenLabsSTTProvider :=
  { api_key := config.api_key
    api_url := config.api_url.getD DEFAULT_API_URL
    model := config.model.getD DEFAULT_MODEL
    language := config.language.getD DEFAULT_LANGUAGE
    diarize := config.diarize.getD DEFAULT_DIARIZE
    tag_audio_events := config.tag_audio_events.getD DEFAULT_TAG_AUDIO_EVENTS }

/-- WAV file as assembled through the `wave` module writer: the three
parameters set by `setnchannels` / `setsampwidth` / `setframerate` and the
frame bytes passed to `writeframes`. -/
structure WavFile where
  nchannels : Nat
  sampwidth : Nat
  framerate : Nat
  frames : List Nat
deriving DecidableEq, Repr

/-- The `wave.open` block of `async_process_audio_stream`:
channels from the metadata, sample width `metadata.bit_rate // 8`,
frame rate from the metadata, frames the buffered audio bytes. -/
def buildWav (metadata : SpeechMetadata) (audio_data : List Nat) : WavFile :=
  WavFile.mk metadata.channel (metadata.bit_rate / 8) metadata.sample_rate audio_data

/-- Python `metadata.language if metadata.language != "auto" else self._language`. -/
def effectiveLanguage (provider_language : String) (metadata_language : String) : String :=
  if metadata_language ≠ "auto" then metadata_language else provider_language

/-- The optional `language_code` form field: present exactly when the code
is not `"auto"` and `language_map.get` produced a value. -/
def languageCodeField (language_code : String) : Option String :=
  if language_code ≠ "auto" ∧ (languageMapGet language_code).isSome then
    languageMapGet language_code
  else
    none

/-- Python `str(b).lower()` for a `bool`. -/
def pyBoolStr (b : Bool) : String := if b then "true" else "false"

/-- The outbound HTTP POST assembled in `job`: URL, `xi-api-key` and
`Accept` headers, the multipart file part, and the form-data fields. -/
structure OutboundRequest where
  url : String
  xi_api_key : String
  accept : String
  file_name : String
  file_mime : String
  file_content : WavFile
  model_id : String
  diarize : String
  tag_audio_events : String
  language_code : Option String
deriving DecidableEq, Repr

/-- Construction of the outbound request from the provider configuration,
the metadata and the buffered audio, exactly as `job` assembles it. -/
def buildRequest (p : ElevenLabsSTTProvider) (metadata : SpeechMetadata)
    (audio_data : List Nat) : OutboundRequest :=
  { url := p.api_url ++ "/speech-to-text"
    xi_api_key := p.api_key
    accept := "application/json"
    file_name := "audio.wav"
    file_mime := "audio/wav"
    file_content := buildWav metadata audio_data
    model_id := p.model
    diarize := pyBoolStr p.diarize
    tag_audio_events := pyBoolStr p.tag_audio_events
    language_code := languageCodeField (effectiveLanguage p.language metadata.language) }

/-- A JSON object response, as far as this code inspects it: string keys
mapped to string values. -/
abbrev JsonObj := List (String × String)

/-- Outcome of `requests.post`: a transport-level exception, or a response
with a status code and (when the body parses) a JSON object.  A 200
response whose body fails to parse is `response 200 none`: `response.json()`
raises inside the `try` block. -/
inductive HttpOutcome where
  | transportError : HttpOutcome
  | response (status_code : Nat) (json : Option JsonObj) : HttpOutcome
deriving DecidableEq, Repr

/-- The two `_LOGGER.error` calls in `job`. -/
inductive LogEvent where
  | requestFailedWithStatus (status_code : Nat) : LogEvent
  | requestFailed : LogEvent
deriving DecidableEq, Repr

/-- The response half of `job`: on status 200 return the parsed JSON,
otherwise log the status and return `None`; an exception (from the POST or
from `response.json()`) is caught, logged, and yields `None`. -/
def job (outcome : HttpOutcome) : Option JsonObj × List LogEvent :=
  match outcome with
  | HttpOutcome.transportError => (none, [LogEvent.requestFailed])
  | HttpOutcome.response status_code json =>
    if status_code = 200 then
      match json with
      | some result => (some result, [])
      | none => (none, [LogEvent.requestFailed])
    else
      (none, [LogEvent.requestFailedWithStatus status_code])

/-- Embedding of `async_process_audio_stream`: buffer the chunks, build the
WAV and the request, run `job` on the given network outcome, and map its
return value onto a `SpeechResult`.  Returns the outbound request, the
result, and the log events emitted. -/
def async_process_audio_stream (p : ElevenLabsSTTProvider)
    (metadata : SpeechMetadata) (stream : List (List Nat))
    (outcome : HttpOutcome) : OutboundRequest × SpeechResult × List LogEvent :=
  let audio_data := stream.foldl (fun acc chunk => acc ++ chunk) []
  let request := buildRequest p metadata audio_data
  let rl := job outcome
  let result :=
    match rl.1 with
    | some response =>
      if !response.isEmpty && (response.lookup "text").isSome then
        SpeechResult.mk ((response.lookup "text").getD "") SpeechResultState.success
      else
        SpeechResult.mk "" SpeechResultState.error
    | none => SpeechResult.mk "" SpeechResultState.error
  (request, result, rl.2)

/-- Concrete provider used by witnesses and counterexamples. -/
def provider0 : ElevenLabsSTTProvider :=
  { api_key := "key"
    api_url := DEFAULT_API_URL
    model := DEFAULT_MODEL
    language := "auto"
    diarize := false
    tag_audio_events := false }

/-- Concrete metadata used by witnesses and counterexamples. -/
def metadata0 : SpeechMetadata :=
  { language := "en", channel := 1, bit_rate := 16, sample_rate := 16000 }

/-- Folding append over the chunks concatenates them in arrival order. -/
theorem foldl_append_eq_join (stream : List (List Nat)) (init : List Nat) :
    stream.foldl (fun acc chunk => acc ++ chunk) init = init ++ stream.flatten := by
  induction stream generalizing init with
  | nil => simp
  | cons chunk rest ih => simp [List.foldl, ih]

/-- C1: when the POST returns status 200 and the JSON object is non-empty
and contains a "text" key, the result is SUCCESS carrying that text
verbatim. -/
theorem c1_success_carries_text (p : ElevenLabsSTTProvider)
    (metadata : SpeechMetadata) (stream : List (List Nat)) (response : JsonObj)
    (t : String) (hne : response ≠ []) (ht : response.lookup "text" = some t) :
    (async_process_audio_stream p metadata stream
        (HttpOutcome.response 200 (some response))).2.1 =
      SpeechResult.mk t SpeechResultState.success := by
  simp [async_process_audio_stream, job, ht, hne]

/-- Witness for C1 at a concrete 200 response carrying a text field. -/
theorem c1_success_carries_text_witness :
    (async_process_audio_stream provider0 metadata0 [[1, 2], [3]]
        (HttpOutcome.response 200 (some [("text", "hello")]))).2.1 =
      SpeechResult.mk "hello" SpeechResultState.success :=
  c1_success_carries_text provider0 metadata0 [[1, 2], [3]] [("text", "hello")]
    "hello" (by decide) (by decide)

/-- C2: when the POST returns a status code other than 200 the result is
the ERROR state (with empty text). -/
theorem c2_non_200_yields_error (p : ElevenLabsSTTProvider)
    (metadata : SpeechMetadata) (stream : List (List Nat)) (status_code : Nat)
    (json : Option JsonObj) (h : status_code ≠ 200) :
    (async_process_audio_stream p metadata stream
        (HttpOutcome.response status_code json)).2.1 =
      SpeechResult.mk "" SpeechResultState.error := by
  simp [async_process_audio_stream, job, h]

/-- Witness for C2 at a concrete 404 response. -/
theorem c2_non_200_yields_error_witness :
    (async_process_audio_stream provider0 metadata0 []
        (HttpOutcome.response 404 none)).2.1 =
      SpeechResult.mk "" SpeechResultState.error :=
  c2_non_200_yields_error provider0 metadata0 [] 404 none (by decide)

/-- C3: the language_code form field of the request actually sent is the
mapped three-letter value when the effective language code has a mapped
value in the table, and is omitted when the code is "auto" (whose table
entry is None) or absent from the table. -/
theorem c3_language_code_resolution (p : ElevenLabsSTTProvider)
    (metadata : SpeechMetadata) (stream : List (List Nat))
    (outcome : HttpOutcome) :
    (async_process_audio_stream p metadata stream outcome).1.language_code =
      (match language_map.lookup (effectiveLanguage p.language metadata.language) with
       | some (some v) => some v
       | some none => none
       | none => none) := by
  have h1 : (async_process_audio_stream p metadata stream outcome).1.language_code =
      languageCodeField (effectiveLanguage p.language metadata.language) := rfl
  rw [h1]
  generalize effectiveLanguage p.language metadata.language = lc
  by_cases hauto : lc = "auto"
  · subst hauto
    decide
  · rw [languageCodeField, languageMapGet]
    cases hl : language_map.lookup lc with
    | none => simp
    | some o =>
      cases o with
      | none => simp
      | some v => simp [hauto]

/-- C4 counterexample: a 200 response whose JSON object lacks a "text"
field is collapsed into the generic error result but emits no log event,
refuting the claim that this failure kind is logged. -/
theorem c4_missing_text_counterexample :
    (async_process_audio_stream provider0 metadata0 []
        (HttpOutcome.response 200 (some [("language", "en")]))).2 =
      (SpeechResult.mk "" SpeechResultState.error, ([] : List LogEvent)) := by
  decide

/-- C4 (amended): a transport exception and a non-200 status are each
logged and yield the generic error result; a 200 response whose JSON lacks
a "text" field yields the same generic error result but is not logged; all
three failure kinds return the identical SpeechResult, so the caller cannot
distinguish them. -/
theorem c4_failures_collapse (p : ElevenLabsSTTProvider)
    (metadata : SpeechMetadata) (stream : List (List Nat)) :
    ((async_process_audio_stream p metadata stream HttpOutcome.transportError).2 =
        (SpeechResult.mk "" SpeechResultState.error, [LogEvent.requestFailed])) ∧
    (∀ status_code json, status_code ≠ 200 →
      (async_process_audio_stream p metadata stream
          (HttpOutcome.response status_code json)).2 =
        (SpeechResult.mk "" SpeechResultState.error,
         [LogEvent.requestFailedWithStatus status_code])) ∧
    (∀ response : JsonObj, response.lookup "text" = none →
      (async_process_audio_stream p metadata stream
          (HttpOutcome.response 200 (some response))).2 =
        (SpeechResult.mk "" SpeechResultState.error, ([] : List LogEvent))) := by
  refine ⟨?_, ?_, ?_⟩
  · simp [async_process_audio_stream, job]
  · intro status_code json h
    simp [async_process_audio_stream, job, h]
  · intro response h
    simp [async_process_audio_stream, job, h]

/-- Witness for C4 (amended) at a concrete provider and three concrete
failing outcomes. -/
theorem c4_failures_collapse_witness :
    ((async_process_audio_stream provider0 metadata0 []
        HttpOutcome.transportError).2 =
      (SpeechResult.mk "" SpeechResultState.error, [LogEvent.requestFailed])) ∧
    ((async_process_audio_stream provider0 metadata0 []
        (HttpOutcome.response 500 none)).2 =
      (SpeechResult.mk "" SpeechResultState.error,
       [LogEvent.requestFailedWithStatus 500])) ∧
    ((async_process_audio_stream provider0 metadata0 []
        (HttpOutcome.response 200 (some [("language", "pl")]))).2 =
      (SpeechResult.mk "" SpeechResultState.error, ([] : List LogEvent))) :=
  ⟨(c4_failures_collapse provider0 metadata0 []).1,
   (c4_failures_collapse provider0 metadata0 []).2.1 500 none (by decide),
   (c4_failures_collapse provider0 metadata0 []).2.2 [("language", "pl")] (by decide)⟩

/-- C6: the WAV file sent carries exactly the metadata channel count, a
sample width of bit depth divided by 8, the metadata sample rate, and the
chunks concatenated in arrival order as frame data. -/
theorem c6_wav_container (p : ElevenLabsSTTProvider) (metadata : SpeechMetadata)
    (stream : List (List Nat)) (outcome : HttpOutcome) :
    (async_process_audio_stream p metadata stream outcome).1.file_content =
      WavFile.mk metadata.channel (metadata.bit_rate / 8) metadata.sample_rate
        stream.flatten := by
  show (buildRequest p metadata _).file_content = _
  rw [buildRequest, buildWav, foldl_append_eq_join]
  simp

/-- C7: the outbound request goes to the configured API URL's
speech-to-text endpoint, carries the API key in a header, and its multipart
form holds the WAV file, the model id, the two flags serialized as
lowercase "true"/"false", and the language code exactly when one was
resolved. -/
theorem c7_outbound_request_shape (p : ElevenLabsSTTProvider)
    (metadata : SpeechMetadata) (stream : List (List Nat))
    (outcome : HttpOutcome) :
    ((async_process_audio_stream p metadata stream outcome).1.url =
        p.api_url ++ "/speech-to-text") ∧
    ((async_process_audio_stream p metadata stream outcome).1.xi_api_key =
        p.api_key) ∧
    ((async_process_audio_stream p metadata stream outcome).1.file_name =
        "audio.wav") ∧
    ((async_process_audio_stream p metadata stream outcome).1.file_content =
        buildWav metadata stream.flatten) ∧
    ((async_process_audio_stream p metadata stream outcome).1.model_id =
        p.model) ∧
    ((async_process_audio_stream p metadata stream outcome).1.diarize =
        (if p.diarize then "true" else "false")) ∧
    ((async_process_audio_stream p metadata stream outcome).1.tag_audio_events =
        (if p.tag_audio_events then "true" else "false")) ∧
    ((async_process_audio_stream p metadata stream outcome).1.language_code =
        languageCodeField (effectiveLanguage p.language metadata.language)) := by
  have hreq : (async_process_audio_stream p metadata stream outcome).1 =
      buildRequest p metadata stream.flatten := by
    show buildRequest p metadata _ = _
    rw [foldl_append_eq_join]
    simp
  rw [hreq]
  exact ⟨rfl, rfl, rfl, rfl, rfl, rfl, rfl, rfl⟩

/-- C8 counterexample: the sentinel entry ("auto", None) is in the table,
and its key is not a two-letter code (nor is its value a three-letter
code), refuting the claim that every entry maps a two-letter key to a
three-letter value. -/
theorem c8_auto_entry_counterexample :
    (("auto", (none : Option String)) ∈ language_map) ∧ "auto".length ≠ 2 := by
  decide

/-- C8 (amended): the table's keys are unique, and every entry other than
the "auto" sentinel (which stores None) has a two-letter key and a
three-letter value; the table is a fixed constant, modelled as an immutable
definition. -/
theorem c8_language_map_invariants :
    (language_map.map Prod.fst).Nodup ∧
    (∀ kv ∈ language_map, kv.1 ≠ "auto" →
      kv.1.length = 2 ∧ kv.2.map String.length = some 3) := by
  decide

/-- Witness for C8 (amended) at the concrete entry ("en", "eng"). -/
theorem c8_language_map_invariants_witness :
    ("en" : String).length = 2 ∧
      (some "eng" : Option String).map String.length = some 3 :=
  c8_language_map_invariants.2 ("en", some "eng") (by decide) (by decide)

/-- C9: async_get_engine defaults the configured language to "auto"; when
the metadata language is "auto" the configured language is substituted
before the mapping lookup, and otherwise the metadata language takes
precedence and the configured language is ignored (the field depends only
on the metadata language). -/
theorem c9_language_substitution (config : PlatformConfig)
    (p : ElevenLabsSTTProvider) (metadata : SpeechMetadata)
    (audio_data : List Nat) :
    ((async_get_engine config).language = config.language.getD "auto") ∧
    (metadata.language = "auto" →
      (buildRequest p metadata audio_data).language_code =
        languageCodeField p.language) ∧
    (metadata.language ≠ "auto" →
      (buildRequest p metadata audio_data).language_code =
        languageCodeField metadata.language) := by
  refine ⟨rfl, ?_, ?_⟩
  · intro h
    rw [buildRequest, effectiveLanguage, h]
    simp
  · intro h
    rw [buildRequest, effectiveLanguage]
    simp [h]

/-- Witness for C9 at concrete metadata with language "auto" and with
language "en". -/
theorem c9_language_substitution_witness :
    ((async_get_engine (PlatformConfig.mk "key" none none none none none)).language =
      (none : Option String).getD "auto") ∧
    ((buildRequest provider0 (SpeechMetadata.mk "auto" 1 16 16000) []).language_code =
      languageCodeField provider0.language) ∧
    ((buildRequest provider0 metadata0 []).language_code =
      languageCodeField metadata0.language) :=
  ⟨(c9_language_substitution (PlatformConfig.mk "key" none none none none none)
      provider0 metadata0 []).1,
   (c9_language_substitution (PlatformConfig.mk "key" none none none none none)
      provider0 (SpeechMetadata.mk "auto" 1 16 16000) []).2.1 (by decide),
   (c9_language_substitution (PlatformConfig.mk "key" none none none none none)
      provider0 metadata0 []).2.2 (by decide)⟩

/-- C10: "af", "sr", "tl" and "is" are advertised as supported but have no
mapping entry, so a request in such a language carries no language_code
field; "bn", "te" and "ml" are mapping keys that are not advertised as
supported. -/
theorem c10_supported_vs_map_mismatch :
    (∀ l ∈ (["af", "sr", "tl", "is"] : List String),
        l ∈ SUPPORTED_LANGUAGES ∧ language_map.lookup l = none) ∧
    (∀ l ∈ (["bn", "te", "ml"] : List String),
        (language_map.lookup l).isSome ∧ l ∉ SUPPORTED_LANGUAGES) ∧
    (∀ (p : ElevenLabsSTTProvider) (metadata : SpeechMetadata)
        (audio_data : List Nat),
      metadata.language ∈ (["af", "sr", "tl", "is"] : List String) →
        (buildRequest p metadata audio_data).language_code = none) := by
  refine ⟨by decide, by decide, ?_⟩
  intro p metadata audio_data h
  have h1 : (buildRequest p metadata audio_data).language_code =
      languageCodeField (effectiveLanguage p.language metadata.language) := rfl
  rw [h1, effectiveLanguage]
  simp only [List.mem_cons, List.not_mem_nil, or_false] at h
  rcases h with h | h | h | h
  · rw [h]; exact (by decide : languageCodeField "af" = none)
  · rw [h]; exact (by decide : languageCodeField "sr" = none)
  · rw [h]; exact (by decide : languageCodeField "tl" = none)
  · rw [h]; exact (by decide : languageCodeField "is" = none)

/-- Witness for C10 at concrete metadata with language "af". -/
theorem c10_supported_vs_map_mismatch_witness :
    (("af" : String) ∈ SUPPORTED_LANGUAGES ∧ language_map.lookup "af" = none) ∧
    ((buildRequest provider0 (SpeechMetadata.mk "af" 1 16 16000) []).language_code =
      none) :=
  ⟨c10_supported_vs_map_mismatch.1 "af" (by decide),
   c10_supported_vs_map_mismatch.2.2 provider0 (SpeechMetadata.mk "af" 1 16 16000)
     [] (by decide)⟩

end ElevenLabsSTT
